import Mathlib

/-!
# Verification of the playback-connection core (`src/services/Music.ts`)

Shallow embedding of the `MusicConnection` state machine: queue sequencing,
play/skip/rewind/seek, the `doPlayNext` auto-advance guard, the volume fade
scheduler (`fadeVolumeTo`) and the speaking-activity ducking debounce.

Modelling conventions:
* Queue items are identified by their title string; the TypeScript queue is an
  array that can also hold `null` (pushed by `rewind` when `current` is null),
  so the embedded queue is a `List (Option Item)`.
* Volumes are exact rationals (`ℚ`); JavaScript numbers are floats, but every
  constant involved (1.5, 10, 0.2, 2, 0) and the arithmetic on them in the
  claims is exact in ℚ.
* The eris transport emits the `end` event synchronously from `stopPlaying`
  when a stream is playing, so a manual stop runs the `end` handler inline.
  A natural stream end is a separate scheduler event (`natEnd`).
* The asynchronous parts (Polly synthesis callback, the `async` done-callback
  body whose first statement awaits `getStream`, the `await` inside `seek`)
  are split into explicit steps (`synthOk`/`synthFail`, `doneBody`,
  `seekPart1`/`seekPart2`) so that interleavings can be analysed.
-/

namespace Music

/-- Queue items, identified by title. -/
abbrev Item := String

/-- Errors thrown by `MusicConnection` operations
(`throw new Error('Not connected ...')`). -/
inductive MErr where
  | notConnected
deriving DecidableEq, Repr

/-- `const VOL_FADE_TIME = 1.5` (line 33). -/
def VOL_FADE_TIME : ℚ := 3 / 2

/-- The schedule of volume samples produced by `fadeVolumeTo` (lines 253-265):
`step = (newVolume - startVol) / (VOL_FADE_TIME * 10)` and for
`i = 0, 1, ..., 14` (the loop bound `VOL_FADE_TIME * 10 = 15`) it schedules
`setVolume(Math.max(0, Math.min(startVol + i * step, 2)))`. -/
def fadeVolumeTo (startVol newVolume : ℚ) : List ℚ :=
  let diff := newVolume - startVol
  let step := diff / (VOL_FADE_TIME * 10)
  (List.range 15).map fun i =>
    let lo := if startVol + i * step ≤ 2 then startVol + i * step else 2
    if 0 ≤ lo then lo else 0

/-- State of one `MusicConnection` together with its `MusicQueue` cache entry.
`advances` counts successful dequeues (a `queue.shift()` in `playNext` that
returned an actual item); `crashed` records an uncaught `TypeError` from
invoking a null `doneCallback`. -/
structure ConnState where
  /-- `this.connection` is non-null. -/
  connected : Bool
  /-- `this.voiceChannel` is non-null (a channel is remembered). -/
  voiceChannel : Bool
  /-- `musicQueueCache.queue`; entries can be `none` (a pushed `null`). -/
  queue : List (Option Item)
  /-- `musicQueueCache.current`. -/
  current : Option Item
  /-- the auto-advance guard flag `this.doPlayNext`. -/
  doPlayNext : Bool
  /-- `this.connection.playing`. -/
  playing : Bool
  /-- `this.volume` (the stored target). -/
  volume : ℚ
  /-- `this.connection.volume` (the transport's live volume). -/
  transportVolume : ℚ
  /-- samples of the pending fade timers (`this.fadeTimeouts`). -/
  fadePending : List ℚ
  /-- `this.startSpeakingTimeout` is pending. -/
  startSpeakingTO : Bool
  /-- `this.stopSpeakingTimeout` is pending. -/
  stopSpeakingTO : Bool
  /-- `this.doneCallback` holds a closure that will play this item. -/
  doneCallback : Option Item
  /-- a `doneCallback` was invoked but its async body has not yet resumed. -/
  pendingDoneBody : Option Item
  /-- a Polly `synthesizeSpeech` request for this item is in flight. -/
  pendingSynth : Option Item
  /-- number of successful dequeues performed by `playNext`. -/
  advances : Nat
  /-- an uncaught exception occurred (calling a null `doneCallback`). -/
  crashed : Bool
deriving DecidableEq, Repr

/-- The body of the `end` handler (lines 178-190) up to but excluding the
`doPlayNext` check: clear `current`; if `doneCallback` is set, invoke it
(its async body suspends immediately at `await next.getStream()`, so the
invocation only records `pendingDoneBody`) and null it out.  Used directly
where the caller has just set `doPlayNext := false`. -/
def endGuardDown (s : ConnState) : ConnState :=
  let s := { s with current := none }
  match s.doneCallback with
  | some it => { s with pendingDoneBody := some it, doneCallback := none }
  | none => s

/-- `playNext` (lines 194-235), synchronous part: `queue.shift()`; if the
shifted value is truthy, optionally stop the playing stream (setting
`doPlayNext = false` first, so the synchronously emitted `end` runs with the
guard down) and issue the synthesis request. -/
def playNext (s : ConnState) : ConnState :=
  match s.queue with
  | [] => s
  | next :: rest =>
    let s := { s with queue := rest }
    match next with
    | none => s
    | some it =>
      let s :=
        if s.playing then
          endGuardDown { s with doPlayNext := false, playing := false }
        else s
      { s with pendingSynth := some it, advances := s.advances + 1 }

/-- The full `end` handler (lines 178-190): clear `current`, consume
`doneCallback`, then advance via `playNext` when the guard is up. -/
def endHandler (s : ConnState) : ConnState :=
  let s := endGuardDown s
  if s.doPlayNext then playNext s else s

/-- A natural stream end: the transport stops playing and emits `end`. -/
def natEnd (s : ConnState) : ConnState :=
  if s.playing then endHandler { s with playing := false } else s

/-- Successful synthesis callback (lines 209-232, `err` null): install the
done-callback for the item and play the announcement buffer. -/
def synthOk (s : ConnState) : ConnState :=
  match s.pendingSynth with
  | some it =>
    { s with pendingSynth := none, doneCallback := some it, playing := true }
  | none => s

/-- Failed synthesis callback (lines 210-214): `console.error(err);
this.doneCallback(); return;`.  When `doneCallback` is null this is a
`TypeError` (uncaught, inside the AWS callback): `crashed := true`.  Either
way the shifted item is dropped. -/
def synthFail (s : ConnState) : ConnState :=
  match s.pendingSynth with
  | none => s
  | some _ =>
    match s.doneCallback with
    | none => { s with pendingSynth := none, crashed := true }
    | some it =>
      { s with pendingSynth := none, pendingDoneBody := some it,
               doneCallback := none }

/-- Resumption of the async done-callback body (lines 216-226): obtain the
stream, set `current := next`, play it, and re-enable auto-advance. -/
def doneBody (s : ConnState) : ConnState :=
  match s.pendingDoneBody with
  | some it =>
    { s with pendingDoneBody := none, current := some it, playing := true,
             doPlayNext := true }
  | none => s

/-- `connect` (lines 141-192): joins the channel and registers handlers; if
already connected, only switches channel. -/
def connect (s : ConnState) : ConnState :=
  if s.connected then s else { s with connected := true }

/-- Tail of `play` after the connection logic (lines 81-84):
`queue.push(item)`, then `playNext()` when `current` is empty. -/
def playGo (s : ConnState) (it : Item) : ConnState :=
  let s := { s with queue := s.queue ++ [some it] }
  if s.current = none then playNext s else s

/-- `play(item, voiceChannel?)` (lines 68-87).  `chan` says whether a target
voice channel was passed.  The `throw new Error('Not connected and no voice
channel specified')` happens before any queue mutation, so the error result
carries no state: on failure queue and current are untouched. -/
def play (s : ConnState) (it : Item) (chan : Bool) : Except MErr ConnState :=
  if chan then .ok (playGo (connect s) it)
  else if s.connected then .ok (playGo s it)
  else if s.voiceChannel then .ok (playGo (connect s) it)
  else .error .notConnected

/-- `skip` (lines 114-118): `if (this.connection) this.playNext()`. -/
def skip (s : ConnState) : ConnState :=
  if s.connected then playNext s else s

/-- `rewind` (lines 101-112): connect if needed (throwing when no channel is
remembered), then `queue.unshift(current)` and `playNext()`. -/
def rewind (s : ConnState) : Except MErr ConnState :=
  if s.connected then .ok (playNext { s with queue := s.current :: s.queue })
  else if s.voiceChannel then
    let s := connect s
    .ok (playNext { s with queue := s.current :: s.queue })
  else .error .notConnected

/-- `seek` up to the `await current.getStream()` (lines 238-241):
`doPlayNext = false`; `current` is read (and captured) before the await. -/
def seekPart1 (s : ConnState) : ConnState :=
  { s with doPlayNext := false }

/-- `seek` after the await (lines 243-249), with `cur` the value of
`musicQueueCache.current` captured before the await: `stopPlaying()` (which
synchronously emits `end` when playing), `play(stream, {-ss offset})`,
`current = cur`, `doPlayNext = true`. -/
def seekPart2 (cur : Option Item) (s : ConnState) : ConnState :=
  let s := if s.playing then endHandler { s with playing := false } else s
  { s with playing := true, current := cur, doPlayNext := true }

/-- `seek(time)` run without interleaved events. -/
def seek (s : ConnState) : ConnState :=
  seekPart2 s.current (seekPart1 s)

/-- `setVolume` (lines 120-125): when connected, store the raw level in
`this.volume` and start a fade from the transport's live volume to it
(cancelling pending fade timers by replacing the schedule). -/
def setVolume (s : ConnState) (v : ℚ) : ConnState :=
  if s.connected then
    { s with volume := v, fadePending := fadeVolumeTo s.transportVolume v }
  else s

/-- Firing of `startSpeakingTimeout` (line 156):
`this.connection.setVolume(0.2 * this.volume)`. -/
def duckApply (s : ConnState) : ConnState :=
  { s with startSpeakingTO := false, transportVolume := 0.2 * s.volume }

/-- `disconnect` (lines 280-286): when connected, `stopPlaying()` (which
synchronously emits `end` when a stream is playing), leave the channel and
null the connection.  Nothing touches the fade or speaking timers. -/
def disconnect (s : ConnState) : ConnState :=
  if s.connected then
    let s := if s.playing then endHandler { s with playing := false } else s
    { s with connected := false }
  else s

/-- One `enqueue` on a connected connection with its sequencing run to
completion when one starts: `playGo`, then (if a synthesis request was
issued) the successful synthesis, the natural end of the announcement and
the resumed done-callback body. -/
def settle (s : ConnState) : ConnState :=
  match s.pendingSynth with
  | none => s
  | some _ => doneBody (natEnd (synthOk s))

/-- `play` on an already-connected connection followed by `settle`. -/
def enqueueSettled (s : ConnState) (it : Item) : ConnState :=
  settle (playGo s it)

/-- A freshly connected, idle connection over an empty cache entry. -/
def idleConn : ConnState where
  connected := true
  voiceChannel := true
  queue := []
  current := none
  doPlayNext := true
  playing := false
  volume := 1
  transportVolume := 1
  fadePending := []
  startSpeakingTO := false
  stopSpeakingTO := false
  doneCallback := none
  pendingDoneBody := none
  pendingSynth := none
  advances := 0
  crashed := false

/-- The state a caller observes after `play`: the new state on success, the
old state when the `Not connected` error was thrown (the throw happens
before any mutation of the cache). -/
def playResult (s : ConnState) (it : Item) (chan : Bool) : ConnState :=
  match play s it chan with
  | .ok s2 => s2
  | .error _ => s

/-! ## Activity-ducking model (speakingStart/speakingStop handlers)

Timed model of the handlers registered in `connect` (lines 148-177).  Times
are absolute milliseconds; a `setTimeout(f, w)` armed at time `t` is stored
as the deadline `t + w` and fires once the clock reaches it.  The applied
volume operations are collected in an `acts` log. -/

/-- Volume operations performed by the speaking debounce timers. -/
inductive VolAct where
  /-- `this.connection.setVolume(0.2 * this.volume)` (line 156). -/
  | duck (v : ℚ)
  /-- `this.fadeVolumeTo(this.volume)` (line 173). -/
  | restore (v : ℚ)
deriving DecidableEq, Repr

/-- State of the ducking tracker: the `speaking` set (as a duplicate-free
list), the two debounce timers (absolute deadlines), the stored volume
target `this.volume`, and the log of applied volume operations. -/
structure DuckState where
  speaking : List String
  startTO : Option Nat
  stopTO : Option Nat
  volume : ℚ
  acts : List VolAct
deriving DecidableEq, Repr

/-- Fire `startSpeakingTimeout` (lines 155-159) when its deadline has been
reached: apply the ducked volume `0.2 * this.volume` and clear the timer. -/
def fireStart (now : Nat) (s : DuckState) : DuckState :=
  match s.startTO with
  | some d =>
    if d ≤ now then
      { s with startTO := none, acts := s.acts ++ [.duck (0.2 * s.volume)] }
    else s
  | none => s

/-- Fire `stopSpeakingTimeout` (lines 171-175) when its deadline has been
reached: fade back to `this.volume` and clear the timer. -/
def fireStop (now : Nat) (s : DuckState) : DuckState :=
  match s.stopTO with
  | some d =>
    if d ≤ now then
      { s with stopTO := none, acts := s.acts ++ [.restore s.volume] }
    else s
  | none => s

/-- Fire whichever debounce timers are due at time `now`. -/
def fireTimers (now : Nat) (s : DuckState) : DuckState :=
  fireStop now (fireStart now s)

/-- The `speakingStart` handler (lines 148-163): when the set was empty, a
pending restore timer is cancelled, otherwise (a fresh activity period) the
pending fade is cancelled and a 500 ms duck timer armed; then the identity
joins the set. -/
def speakingStart (now : Nat) (u : String) (s : DuckState) : DuckState :=
  let s :=
    if s.speaking = [] then
      match s.stopTO with
      | some _ => { s with stopTO := none }
      | none => { s with startTO := some (now + 500) }
    else s
  { s with speaking := if u ∈ s.speaking then s.speaking else s.speaking ++ [u] }

/-- The `speakingStop` handler (lines 164-177): remove the identity; when
the set becomes empty, cancel a pending duck timer and arm the 1000 ms
restore timer. -/
def speakingStop (now : Nat) (u : String) (s : DuckState) : DuckState :=
  let s := { s with speaking := s.speaking.erase u }
  if s.speaking = [] then
    let s :=
      match s.startTO with
      | some _ => { s with startTO := none }
      | none => s
    { s with stopTO := some (now + 1000) }
  else s

/-- Ducking tracker at rest: nobody speaking, no timers pending, stored
volume target `v`, nothing applied yet. -/
def idleDuck (v : ℚ) : DuckState :=
  ⟨[], none, none, v, []⟩

/-! ## Claims -/

/-- C1.  The claim says that once the fade scheduled by `setVolume(v)` runs
all of its steps, the last applied sample equals the target `v`.  The code
disagrees: the loop in `fadeVolumeTo` runs `i = 0 .. 14` and applies
`startVol + i * step` with `step = (v - startVol) / 15`, so the last applied
sample is `startVol + (14/15)·(v - startVol)`.  Evaluation at the failing
input (transport volume 1, target 0 ∈ [0,2]): the last scheduled sample is
1/15, not 0. -/
theorem fadeVolumeTo_last_sample_misses_target :
    (fadeVolumeTo 1 0).getLast? = some (1 / 15) ∧ (1 / 15 : ℚ) ≠ 0 := by
  constructor
  · have hr : List.range 15 = [0, 1, 2, 3, 4, 5, 6, 7, 8, 9, 10, 11, 12, 13, 14] := by
      rfl
    simp only [fadeVolumeTo, VOL_FADE_TIME, hr, List.map_cons, List.map_nil,
      List.getLast?]
    norm_num
  · norm_num

/-- Connected idle connection after `play("songA")` was called on an empty
cache entry: the item has been dequeued by `playNext` and its synthesis
request is in flight. -/
def synthPendingState : ConnState := playGo idleConn "songA"

/-- C2.  The claim (and the spec) say a synthesis failure still lets the
item play.  The code's error path (lines 210-214) is
`console.error(err); this.doneCallback(); return;`: at that point
`doneCallback` is null, so invoking it throws an uncaught `TypeError`, and
the item — already shifted off the queue by `playNext` — is dropped: it is
in neither `queue` nor `current`, and no playback is started for it. -/
theorem synthFail_drops_item_and_crashes :
    (synthFail synthPendingState).crashed = true ∧
    (synthFail synthPendingState).current = none ∧
    (synthFail synthPendingState).queue = [] ∧
    (synthFail synthPendingState).pendingSynth = none ∧
    (synthFail synthPendingState).pendingDoneBody = none := by
  refine ⟨rfl, rfl, rfl, rfl, rfl⟩

/-- `playNext` performs at most one dequeue. -/
lemma playNext_advances_le (s : ConnState) :
    (playNext s).advances ≤ s.advances + 1 := by
  unfold playNext
  rcases hq : s.queue with _ | ⟨n, rest⟩
  · exact Nat.le_succ_of_le (Nat.le_refl _)
  · rcases n with _ | it
    · exact Nat.le_succ_of_le (Nat.le_refl _)
    · rcases hp : s.playing <;> rcases hdc : s.doneCallback <;>
        simp [endGuardDown, hp, hdc]

/-- `endGuardDown` touches only `current`, `doneCallback`,
`pendingDoneBody`. -/
lemma endGuardDown_advances (s : ConnState) :
    (endGuardDown s).advances = s.advances := by
  unfold endGuardDown
  rcases s.doneCallback <;> rfl

lemma endGuardDown_doPlayNext (s : ConnState) :
    (endGuardDown s).doPlayNext = s.doPlayNext := by
  unfold endGuardDown
  rcases s.doneCallback <;> rfl

/-- Connected connection playing item `songA` with `songB` queued. -/
def playingAB : ConnState :=
  { idleConn with
    current := some "songA"
    queue := [some "songB"]
    playing := true }

/-- An interleaving in which a natural stream end is delivered while `seek`
is suspended at `await current.getStream()`: `seekPart1` has already lowered
`doPlayNext`, so the end handler performs no advance, and `seekPart2` then
restarts the very item that ended. -/
def seekNatEndTrace : ConnState :=
  seekPart2 (some "songA") (natEnd (seekPart1 playingAB))

/-- C3 counterexample.  The claim says every interleaving of one natural
stream end with one manual operation yields exactly one queue advance per
end-of-item event — never zero.  In the concrete interleaving
`seekPart1; natEnd; seekPart2` the natural end of "songA" is delivered with
the guard down, so the connection performs zero advances: the queue still
holds "songB" untouched and "songA" plays again. -/
theorem natEnd_during_seek_zero_advances :
    seekNatEndTrace.advances = 0 ∧
    seekNatEndTrace.current = some "songA" ∧
    seekNatEndTrace.queue = [some "songB"] := by
  refine ⟨rfl, rfl, rfl⟩

/-- C3 amended.  A delivered end-of-stream event causes at most one queue
advance (never two): the `end` handler calls `playNext` at most once and
`playNext` dequeues at most one item; and when the `doPlayNext` guard is
down, a natural end causes no advance at all.  (Zero advances for a natural
end is reachable, as `natEnd_during_seek_zero_advances` shows, so "never
zero" does not hold.) -/
theorem natEnd_at_most_one_advance (s : ConnState) :
    (natEnd s).advances ≤ s.advances + 1 ∧
    (s.doPlayNext = false → (natEnd s).advances = s.advances) := by
  constructor
  · unfold natEnd endHandler
    rcases hp : s.playing
    · exact Nat.le_succ_of_le (Nat.le_refl _)
    · have h1 := endGuardDown_advances { s with playing := false }
      have h2 := playNext_advances_le (endGuardDown { s with playing := false })
      rcases hg : (endGuardDown { s with playing := false }).doPlayNext <;>
        simp [hg, h1] at h2 ⊢ <;> omega
  · intro hdpn
    unfold natEnd endHandler
    rcases hp : s.playing
    · rfl
    · simp [endGuardDown_doPlayNext, hdpn, endGuardDown_advances]

/-- C3 amended, witness: at the concrete playing state, a natural end with
the guard up advances at most once, and with the guard down (after
`seekPart1`) advances not at all. -/
theorem natEnd_at_most_one_advance_witness :
    (natEnd playingAB).advances ≤ playingAB.advances + 1 ∧
    (natEnd (seekPart1 playingAB)).advances = (seekPart1 playingAB).advances := by
  exact ⟨(natEnd_at_most_one_advance playingAB).1,
    (natEnd_at_most_one_advance (seekPart1 playingAB)).2 rfl⟩

/-- C4.  `seek` — including the `end` notification that its `stopPlaying`
triggers synchronously, handled with the guard down — leaves the queue
untouched, restores the identical `current` item (captured before the
await), performs no dequeue and starts no new transition. -/
theorem seek_frame (s : ConnState) (x : Item) (_hconn : s.connected = true)
    (hcur : s.current = some x) :
    (seek s).queue = s.queue ∧ (seek s).current = some x ∧
    (seek s).advances = s.advances ∧
    (seek s).pendingSynth = s.pendingSynth := by
  unfold seek seekPart2 seekPart1 endHandler endGuardDown
  rcases hp : s.playing <;> rcases hdc : s.doneCallback <;>
    simp [hp, hdc, hcur]

/-- C4 witness. -/
theorem seek_frame_witness :
    (seek playingAB).queue = playingAB.queue ∧
    (seek playingAB).current = some "songA" ∧
    (seek playingAB).advances = playingAB.advances ∧
    (seek playingAB).pendingSynth = playingAB.pendingSynth :=
  seek_frame playingAB "songA" rfl rfl

/-- C5.  With no live transport and no remembered channel, `play` without a
target channel throws `Not connected and no voice channel specified` before
touching the cache: the observed state keeps its queue and current item
(the item is not appended). -/
theorem play_not_connected (s : ConnState) (it : Item)
    (hc : s.connected = false) (hv : s.voiceChannel = false) :
    play s it false = .error .notConnected ∧
    (playResult s it false).queue = s.queue ∧
    (playResult s it false).current = s.current := by
  unfold playResult play
  simp [hc, hv]

/-- A never-connected connection over an empty cache entry. -/
def freshConn : ConnState :=
  { idleConn with connected := false, voiceChannel := false }

/-- C5 witness. -/
theorem play_not_connected_witness :
    play freshConn "songA" false = .error .notConnected ∧
    (playResult freshConn "songA" false).queue = freshConn.queue ∧
    (playResult freshConn "songA" false).current = freshConn.current :=
  play_not_connected freshConn "songA" rfl rfl

/-- C6 counterexample.  The claim says the stored `currentVolumeTarget` lies
in [0,2] (clamped).  `setVolume` (line 122) stores the raw level:
`this.volume = volume` — at input 5 the stored target is 5, outside [0,2].
Only the individual fade samples are clamped. -/
theorem setVolume_stores_unclamped :
    (setVolume idleConn 5).volume = 5 ∧
    ¬ (setVolume idleConn 5).volume ≤ 2 := by
  have h : (setVolume idleConn 5).volume = 5 := rfl
  refine ⟨h, ?_⟩
  rw [h]
  norm_num

/-- C6 amended.  On a connected connection `setVolume(level)` stores `level`
as-is (unclamped) as the target, schedules a fade from the transport's live
volume to it, and the ducked volume applied on activity is `0.2 ×` the
stored target; `setVolume` is a no-op when not connected. -/
theorem setVolume_amended (s : ConnState) (v : ℚ) :
    (s.connected = true →
      (setVolume s v).volume = v ∧
      (duckApply (setVolume s v)).transportVolume = 0.2 * v ∧
      (setVolume s v).fadePending = fadeVolumeTo s.transportVolume v) ∧
    (s.connected = false → setVolume s v = s) := by
  constructor
  · intro hc
    unfold setVolume duckApply
    simp [hc]
  · intro hc
    unfold setVolume
    simp [hc]

/-- C6 amended, witness. -/
theorem setVolume_amended_witness :
    (setVolume idleConn 5).fadePending =
      fadeVolumeTo idleConn.transportVolume 5 ∧
    (duckApply (setVolume idleConn 5)).transportVolume = 0.2 * 5 ∧
    setVolume freshConn 5 = freshConn :=
  ⟨((setVolume_amended idleConn 5).1 rfl).2.2,
   ((setVolume_amended idleConn 5).1 rfl).2.1,
   (setVolume_amended freshConn 5).2 rfl⟩

/-- An `enqueue` on a connection that is already playing something only
appends to the queue. -/
lemma enqueueSettled_busy (s : ConnState) (it : Item) (a : Item)
    (hc : s.current = some a) (hp : s.pendingSynth = none) :
    enqueueSettled s it = { s with queue := s.queue ++ [some it] } := by
  unfold enqueueSettled playGo settle
  simp [hc, hp]

/-- Folding further `enqueue`s over a busy connection appends them in
submission order. -/
lemma foldl_enqueue_busy (rest : List Item) (s : ConnState) (a : Item)
    (hc : s.current = some a) (hp : s.pendingSynth = none) :
    (rest.foldl enqueueSettled s).current = some a ∧
    (rest.foldl enqueueSettled s).queue = s.queue ++ rest.map some := by
  induction rest generalizing s with
  | nil => simpa using hc
  | cons b bs ih =>
    rw [List.foldl_cons, enqueueSettled_busy s b a hc hp]
    obtain ⟨h1, h2⟩ := ih { s with queue := s.queue ++ [some b] } hc hp
    refine ⟨h1, ?_⟩
    rw [h2]
    simp

/-- C7.  Starting from a connected idle connection with empty queue and no
current item, any non-empty sequence of `enqueue` calls — each one's
sequencing (synthesis, announcement, done-callback) run to completion —
ends with `current` equal to the first enqueued item and `queue` equal to
the remaining items in submission order. -/
theorem enqueue_fifo (a : Item) (rest : List Item) :
    ((a :: rest).foldl enqueueSettled idleConn).current = some a ∧
    ((a :: rest).foldl enqueueSettled idleConn).queue = rest.map some := by
  rw [List.foldl_cons]
  have h0 : enqueueSettled idleConn a =
      { idleConn with current := some a, playing := true, advances := 1 } := rfl
  rw [h0]
  obtain ⟨h1, h2⟩ :=
    foldl_enqueue_busy rest
      { idleConn with current := some a, playing := true, advances := 1 } a rfl rfl
  refine ⟨h1, ?_⟩
  rw [h2]
  simp [idleConn]

lemma endGuardDown_timers (s : ConnState) :
    (endGuardDown s).fadePending = s.fadePending ∧
    (endGuardDown s).startSpeakingTO = s.startSpeakingTO ∧
    (endGuardDown s).stopSpeakingTO = s.stopSpeakingTO := by
  unfold endGuardDown
  rcases s.doneCallback <;> exact ⟨rfl, rfl, rfl⟩

lemma playNext_timers (s : ConnState) :
    (playNext s).fadePending = s.fadePending ∧
    (playNext s).startSpeakingTO = s.startSpeakingTO ∧
    (playNext s).stopSpeakingTO = s.stopSpeakingTO := by
  unfold playNext
  rcases hq : s.queue with _ | ⟨n, rest⟩
  · exact ⟨rfl, rfl, rfl⟩
  · rcases n with _ | it
    · exact ⟨rfl, rfl, rfl⟩
    · rcases hp : s.playing <;> rcases hdc : s.doneCallback <;>
        simp [endGuardDown, hp, hdc]

lemma endHandler_timers (s : ConnState) :
    (endHandler s).fadePending = s.fadePending ∧
    (endHandler s).startSpeakingTO = s.startSpeakingTO ∧
    (endHandler s).stopSpeakingTO = s.stopSpeakingTO := by
  unfold endHandler
  obtain ⟨e1, e2, e3⟩ := endGuardDown_timers s
  obtain ⟨p1, p2, p3⟩ := playNext_timers (endGuardDown s)
  rcases hg : (endGuardDown s).doPlayNext <;>
    simp [hg, e1, e2, e3, p1, p2, p3]

lemma endGuardDown_current (s : ConnState) :
    (endGuardDown s).current = none := by
  unfold endGuardDown
  rcases s.doneCallback <;> rfl

lemma endGuardDown_playing (s : ConnState) :
    (endGuardDown s).playing = s.playing := by
  unfold endGuardDown
  rcases s.doneCallback <;> rfl

lemma playNext_current_of_not_playing (s : ConnState)
    (h : s.playing = false) :
    (playNext s).current = s.current := by
  unfold playNext
  rcases hq : s.queue with _ | ⟨n, rest⟩
  · rfl
  · rcases n with _ | it
    · rfl
    · simp [h]

lemma endHandler_fadePending (s : ConnState) :
    (endHandler s).fadePending = s.fadePending :=
  (endHandler_timers s).1

lemma endHandler_startSpeakingTO (s : ConnState) :
    (endHandler s).startSpeakingTO = s.startSpeakingTO :=
  (endHandler_timers s).2.1

lemma endHandler_stopSpeakingTO (s : ConnState) :
    (endHandler s).stopSpeakingTO = s.stopSpeakingTO :=
  (endHandler_timers s).2.2

lemma endHandler_current_of_not_playing (s : ConnState)
    (h : s.playing = false) :
    (endHandler s).current = none := by
  unfold endHandler
  rcases hg : (endGuardDown s).doPlayNext
  · simp [hg, endGuardDown_current]
  · have hpl : (endGuardDown s).playing = false := by
      rw [endGuardDown_playing, h]
    simp [hg, playNext_current_of_not_playing _ hpl, endGuardDown_current]

/-- Connected connection playing `songA` with `songB` queued, a fade timer
pending and the duck debounce timer armed. -/
def duckedPlayingAB : ConnState :=
  { idleConn with
    current := some "songA"
    queue := [some "songB"]
    playing := true
    fadePending := [1]
    startSpeakingTO := true }

/-- C9 counterexample.  `disconnect` (lines 280-286) never touches
`fadeTimeouts`, `startSpeakingTimeout` or `stopSpeakingTimeout`, so pending
fade and debounce timers survive it; and its `stopPlaying()` synchronously
triggers the `end` handler, which clears `current` and — the guard being up
— dequeues "songB" into a new transition.  At this concrete state the claim
fails on all three counts: the fade timer is still pending, `current` is
cleared, and the queue is drained. -/
theorem disconnect_keeps_timers_and_clears_state :
    (disconnect duckedPlayingAB).fadePending = [1] ∧
    (disconnect duckedPlayingAB).startSpeakingTO = true ∧
    (disconnect duckedPlayingAB).current = none ∧
    (disconnect duckedPlayingAB).queue = [] ∧
    (disconnect duckedPlayingAB).connected = false :=
  ⟨rfl, rfl, rfl, rfl, rfl⟩

/-- C9 amended.  `disconnect()` releases the transport handle but cancels
no timers: all pending fade and ducking-debounce timers survive.  The cached
queue and current item are left unchanged only when nothing is playing;
when a stream is playing, the synchronous `end` notification of its stop
clears `current` (and, with the guard up, dequeues the queue head). -/
theorem disconnect_amended (s : ConnState) :
    (disconnect s).fadePending = s.fadePending ∧
    (disconnect s).startSpeakingTO = s.startSpeakingTO ∧
    (disconnect s).stopSpeakingTO = s.stopSpeakingTO ∧
    (disconnect s).connected = false ∧
    (s.playing = false →
      (disconnect s).queue = s.queue ∧ (disconnect s).current = s.current) ∧
    (s.connected = true → s.playing = true → (disconnect s).current = none) := by
  unfold disconnect
  rcases hc : s.connected
  · simp [hc]
  · rcases hp : s.playing
    · simp [hc, hp]
    · simp [hc, hp, endHandler_fadePending, endHandler_startSpeakingTO,
        endHandler_stopSpeakingTO, endHandler_current_of_not_playing]

/-- C9 amended, witness: at the playing state the timers survive and
`current` is cleared; at the idle state queue and current are untouched. -/
theorem disconnect_amended_witness :
    (disconnect duckedPlayingAB).fadePending = duckedPlayingAB.fadePending ∧
    (disconnect duckedPlayingAB).current = none ∧
    (disconnect idleConn).queue = idleConn.queue ∧
    (disconnect idleConn).current = idleConn.current :=
  ⟨(disconnect_amended duckedPlayingAB).1,
   (disconnect_amended duckedPlayingAB).2.2.2.2.2 rfl rfl,
   ((disconnect_amended idleConn).2.2.2.2.1 rfl).1,
   ((disconnect_amended idleConn).2.2.2.2.1 rfl).2⟩

/-- C10.  `rewind` on a connected connection with empty `current` does not
fail: it unshifts the null `current` onto the queue front, and the
`playNext` it then calls shifts exactly that null back off — the falsy
check `if (next)` makes the advance a no-op, leaving the queue as before,
`current` still empty and no dequeue counted. -/
theorem rewind_with_null_current (s : ConnState) (hc : s.connected = true)
    (hcur : s.current = none) :
    rewind s = .ok (playNext { s with queue := none :: s.queue }) ∧
    (playNext { s with queue := none :: s.queue }).queue = s.queue ∧
    (playNext { s with queue := none :: s.queue }).current = none ∧
    (playNext { s with queue := none :: s.queue }).advances = s.advances := by
  refine ⟨?_, rfl, hcur, rfl⟩
  unfold rewind
  simp [hc, hcur]

/-- Connected idle connection with one queued item and empty `current`. -/
def idleWithQueue : ConnState := { idleConn with queue := [some "songB"] }

/-- C8.  Timed behavior of the ducking debounce, from a quiet tracker with
stored target `v`:
1. a single identity active continuously for more than 500 ms (no stop
   before time `d > 500`) ducks the volume to `0.2 × v`;
2. a start followed by a stop of the same identity within 500 ms never
   ducks — whatever happens afterwards, the applied operations are at most
   one restore and never a duck;
3. after the ducked set empties at time 600, no restore is applied before
   1000 ms of silence have elapsed (nothing fires before time 1600);
4. a new activity inside that window cancels the pending restore: no
   further volume operation ever fires afterwards;
5. with 1000 ms of uninterrupted silence the restore to `v` does fire. -/
theorem activity_ducking (u : String) (v : ℚ) :
    (∀ d, 500 < d →
      (fireTimers d (speakingStart 0 u (idleDuck v))).acts =
        [.duck (0.2 * v)]) ∧
    (∀ d T, d < 500 →
      (fireTimers T (speakingStop d u
        (fireTimers d (speakingStart 0 u (idleDuck v))))).acts = [] ∨
      (fireTimers T (speakingStop d u
        (fireTimers d (speakingStart 0 u (idleDuck v))))).acts =
        [.restore v]) ∧
    (∀ t, t < 1600 →
      (fireTimers t (speakingStop 600 u
        (fireTimers 600 (speakingStart 0 u (idleDuck v))))).acts =
        [.duck (0.2 * v)]) ∧
    (∀ t1 T, t1 < 1600 →
      (fireTimers T (speakingStart t1 u (fireTimers t1 (speakingStop 600 u
        (fireTimers 600 (speakingStart 0 u (idleDuck v))))))).acts =
        [.duck (0.2 * v)]) ∧
    (fireTimers 1600 (speakingStop 600 u
      (fireTimers 600 (speakingStart 0 u (idleDuck v))))).acts =
      [.duck (0.2 * v), .restore v] := by
  have h1 : speakingStart 0 u (idleDuck v) = ⟨[u], some 500, none, v, []⟩ :=
    rfl
  have h4 : speakingStop 600 u
      (fireTimers 600 (speakingStart 0 u (idleDuck v))) =
      ⟨[], none, some 1600, v, [.duck (0.2 * v)]⟩ := by
    rw [h1]
    have h2 : fireTimers 600 (⟨[u], some 500, none, v, []⟩ : DuckState) =
        ⟨[u], none, none, v, [.duck (0.2 * v)]⟩ := by
      unfold fireTimers fireStart fireStop
      simp
    rw [h2]
    unfold speakingStop
    simp [List.erase_cons_head]
  refine ⟨?_, ?_, ?_, ?_, ?_⟩
  · intro d hd
    rw [h1]
    unfold fireTimers fireStart fireStop
    simp [Nat.le_of_lt hd]
  · intro d T hd
    have h2 : fireTimers d (speakingStart 0 u (idleDuck v)) =
        ⟨[u], some 500, none, v, []⟩ := by
      rw [h1]
      unfold fireTimers fireStart fireStop
      simp [Nat.not_le.mpr hd]
    rw [h2]
    have h3 : speakingStop d u (⟨[u], some 500, none, v, []⟩ : DuckState) =
        ⟨[], none, some (d + 1000), v, []⟩ := by
      unfold speakingStop
      simp [List.erase_cons_head]
    rw [h3]
    unfold fireTimers fireStart fireStop
    rcases le_or_lt (d + 1000) T with h | h
    · right
      simp [h]
    · left
      simp [Nat.not_le.mpr h]
  · intro t ht
    rw [h4]
    unfold fireTimers fireStart fireStop
    simp [Nat.not_le.mpr ht]
  · intro t1 T ht1
    rw [h4]
    have h5 : fireTimers t1
        (⟨[], none, some 1600, v, [.duck (0.2 * v)]⟩ : DuckState) =
        ⟨[], none, some 1600, v, [.duck (0.2 * v)]⟩ := by
      unfold fireTimers fireStart fireStop
      simp [Nat.not_le.mpr ht1]
    rw [h5]
    have h6 : speakingStart t1 u
        (⟨[], none, some 1600, v, [.duck (0.2 * v)]⟩ : DuckState) =
        ⟨[u], none, none, v, [.duck (0.2 * v)]⟩ := rfl
    rw [h6]
    rfl
  · rw [h4]
    unfold fireTimers fireStart fireStop
    simp

/-- C8 witness: the five parts at identity `alice`, target volume 1, with
concrete times (duck fires at 501 ms; a 499 ms activity never ducks; after
silence from 600 ms nothing fires at 700 ms; renewed activity at 700 ms
cancels the restore; silence through 1600 ms restores). -/
theorem activity_ducking_witness :
    (fireTimers 501 (speakingStart 0 "alice" (idleDuck 1))).acts =
      [.duck (0.2 * 1)] ∧
    ((fireTimers 2000 (speakingStop 499 "alice"
        (fireTimers 499 (speakingStart 0 "alice" (idleDuck 1))))).acts = [] ∨
      (fireTimers 2000 (speakingStop 499 "alice"
        (fireTimers 499 (speakingStart 0 "alice" (idleDuck 1))))).acts =
        [.restore 1]) ∧
    (fireTimers 700 (speakingStop 600 "alice"
      (fireTimers 600 (speakingStart 0 "alice" (idleDuck 1))))).acts =
      [.duck (0.2 * 1)] ∧
    (fireTimers 5000 (speakingStart 700 "alice"
      (fireTimers 700 (speakingStop 600 "alice"
        (fireTimers 600 (speakingStart 0 "alice" (idleDuck 1))))))).acts =
      [.duck (0.2 * 1)] ∧
    (fireTimers 1600 (speakingStop 600 "alice"
      (fireTimers 600 (speakingStart 0 "alice" (idleDuck 1))))).acts =
      [.duck (0.2 * 1), .restore 1] :=
  ⟨(activity_ducking "alice" 1).1 501 (by decide),
   (activity_ducking "alice" 1).2.1 499 2000 (by decide),
   (activity_ducking "alice" 1).2.2.1 700 (by decide),
   (activity_ducking "alice" 1).2.2.2.1 700 5000 (by decide),
   (activity_ducking "alice" 1).2.2.2.2⟩

/-- C10 witness. -/
theorem rewind_with_null_current_witness :
    rewind idleWithQueue =
      .ok (playNext { idleWithQueue with queue := none :: idleWithQueue.queue }) ∧
    (playNext { idleWithQueue with queue := none :: idleWithQueue.queue }).queue =
      idleWithQueue.queue ∧
    (playNext { idleWithQueue with queue := none :: idleWithQueue.queue }).current =
      none ∧
    (playNext { idleWithQueue with queue := none :: idleWithQueue.queue }).advances =
      idleWithQueue.advances :=
  rewind_with_null_current idleWithQueue rfl rfl

end Music
